import Mathlib

/-!
Verification of `src/server.py`, a one-tool MCP server.

The file defines exactly one tool, `get_email_campaign_data`, registered on a
`FastMCP` instance, and a `__main__` block that runs the server over stdio.
The body of the tool (lines 37–47) consists of a docstring, eight TODO
comment lines and the single statement `pass`; in Python such a body returns
`None` for every argument pair, opens no file, and raises no exception.  The
`__main__` block (lines 49–58) wraps `mcp.run` in a `try` that catches
`KeyboardInterrupt` (logged, then the script ends normally, exit status 0)
and any other `Exception` (logged via `logger.error` with the message
`"Server error: <e>"`, then `sys.exit(1)`).

We embed the tool body as a trace-producing function recording the Python
return value (`Option String`, `none` standing for Python `None`), the list
of file paths opened during the call, and the exception raised if any; and
the `__main__` block as a function from the way the serve loop ends to the
resulting exit code and logged error.
-/

namespace Server

/-- Default value declared for `query_type` in the tool signature
(`query_type: str = "all"`, src/server.py line 24). -/
def QUERY_TYPE_DEFAULT : String := "all"

/-- Default value declared for `campaign_name` in the tool signature
(`campaign_name: str = None`, src/server.py line 24); Python `None` is
modelled as `Option.none`. -/
def CAMPAIGN_NAME_DEFAULT : Option String := none

/-- Observable outcome of one execution of the tool body: the Python return
value (`none` = Python `None`), the file paths the body opened, and the
exception it raised (`none` = normal return). -/
structure ToolTrace where
  result : Option String
  filesRead : List String
  raised : Option String
  deriving DecidableEq, Repr

/-- Shallow embedding of the body of `get_email_campaign_data`
(src/server.py lines 24–47).  The body is a docstring, TODO comments and
`pass`, so every call returns Python `None`, opens no file, and raises no
exception, independently of both arguments. -/
def get_email_campaign_data_trace (query_type : String)
    (campaign_name : Option String) : ToolTrace :=
  { result := none, filesRead := [], raised := none }

/-- The value returned by a call of `get_email_campaign_data`. -/
def get_email_campaign_data (query_type : String)
    (campaign_name : Option String) : Option String :=
  (get_email_campaign_data_trace query_type campaign_name).result

/-- Python call semantics for the tool: an argument left out by the caller
takes the default declared in the signature (`query_type = "all"`,
`campaign_name = None`).  The outer `Option` layer is "did the caller pass
this argument". -/
def callTool (query_type : Option String)
    (campaign_name : Option (Option String)) : Option String :=
  get_email_campaign_data (query_type.getD QUERY_TYPE_DEFAULT)
    (campaign_name.getD CAMPAIGN_NAME_DEFAULT)

/-- State of the backing data file `mock_data.json`: `none` when the file is
missing, `some s` when it is present with contents `s`. -/
def World : Type := Option String

/-- One tool invocation against a file state: since the body performs no
I/O (its trace opens no file), the call returns the body's value and leaves
the file state untouched. -/
def invoke (w : World) (query_type : String) (campaign_name : Option String) :
    Option String × World :=
  ((get_email_campaign_data_trace query_type campaign_name).result, w)

/-- Whether the response text mentions a given datum, as a substring; a
Python `None` response is not text and mentions nothing. -/
def responseMentions (resp : Option String) (datum : String) : Bool :=
  match resp with
  | none => false
  | some s => s.containsSubstr datum

/-- How the serve loop `mcp.run(transport="stdio")` ends: interrupted by the
user (`KeyboardInterrupt`), aborted by some other fault (`Exception` with a
message), or returning normally when the stream closes. -/
inductive ServeOutcome where
  | interrupted : ServeOutcome
  | fault : String → ServeOutcome
  | finished : ServeOutcome
  deriving DecidableEq, Repr

/-- Outcome of the whole process: its exit status and the error message the
`__main__` block logged via `logger.error`, if any. -/
structure MainResult where
  exitCode : Nat
  loggedError : Option String
  deriving DecidableEq, Repr

/-- Shallow embedding of the `__main__` block (src/server.py lines 49–58):
`KeyboardInterrupt` is caught, logged at info level, and the script then
ends normally with status 0; any other `Exception` is caught, logged as
`"Server error: <e>"`, and the script calls `sys.exit(1)`; a normal return
of `mcp.run` falls off the end of the script with status 0. -/
def mainOf : ServeOutcome → MainResult
  | ServeOutcome.interrupted => { exitCode := 0, loggedError := none }
  | ServeOutcome.fault m =>
      { exitCode := 1, loggedError := some ("Server error: " ++ m) }
  | ServeOutcome.finished => { exitCode := 0, loggedError := none }

/-- Claim C1 (code bug evidence): called with the recognized
`query_type = "all"` and no `campaign_name`, the tool body returns Python
`None`, not a text string — the stub body contradicts the declared `-> str`
return annotation and the docstring. -/
theorem c1_stub_returns_none :
    get_email_campaign_data "all" none = none := rfl

/-- Claim C2 (code bug evidence): with `campaign_name = "Unknown"`, which
matches no record, the tool body returns Python `None` — there is no
`NotFound` error shape and no explicit "no data" response in the stub. -/
theorem c2_unknown_campaign_returns_none :
    get_email_campaign_data "all" (some "Unknown") = none := rfl

/-- Claim C3 (code bug evidence): the tool body opens no file and raises no
exception, and returns `None`, so a missing or malformed `mock_data.json`
can never produce the required `DataUnavailable` error result; evaluated at
`query_type = "all"` with no `campaign_name`. -/
theorem c3_no_file_access_no_error :
    get_email_campaign_data_trace "all" none =
      { result := none, filesRead := [], raised := none } := rfl

/-- Claim C4: for every `campaign_name` and every candidate datum, the
output for `query_type = "performance"` mentions no subject-line text and
the output for `query_type = "subjects"` mentions no revenue figure; both
outputs are Python `None`, which mentions nothing at all. -/
theorem c4_projection_correctness (campaign_name : Option String)
    (datum : String) :
    responseMentions (get_email_campaign_data "performance" campaign_name)
        datum = false ∧
    responseMentions (get_email_campaign_data "subjects" campaign_name)
        datum = false :=
  ⟨rfl, rfl⟩

/-- Claim C5: for every argument pair and every candidate datum, the
response mentions nothing; a fortiori every datum appearing in the response
is present in the backing file, and the response introduces no data not
present there. -/
theorem c5_no_foreign_data (query_type : String)
    (campaign_name : Option String) (datum : String) :
    responseMentions (get_email_campaign_data query_type campaign_name)
      datum = false := rfl

/-- Claim C6: a call leaves the backing file state unchanged, and a repeated
identical call against that unchanged state yields the identical output. -/
theorem c6_idempotent (w : World) (query_type : String)
    (campaign_name : Option String) :
    (invoke w query_type campaign_name).2 = w ∧
    (invoke (invoke w query_type campaign_name).2 query_type
        campaign_name).1 =
      (invoke w query_type campaign_name).1 :=
  ⟨rfl, rfl⟩

/-- Claim C7: the defaults declared in the signature are `"all"` and absent
(`None`); leaving `query_type` out is the same call as passing `"all"`, and
leaving `campaign_name` out is the same call as passing the absent value. -/
theorem c7_declared_defaults (query_type : Option String)
    (campaign_name : Option (Option String)) :
    QUERY_TYPE_DEFAULT = "all" ∧
    CAMPAIGN_NAME_DEFAULT = none ∧
    callTool none campaign_name = callTool (some "all") campaign_name ∧
    callTool query_type none = callTool query_type (some none) :=
  ⟨rfl, rfl, rfl, rfl⟩

/-- Claim C8: a user interrupt ends the process with exit status 0 and no
error logged; any other fault during serving is logged as
`"Server error: <message>"` and ends the process with a non-zero status. -/
theorem c8_exit_codes (m : String) :
    (mainOf ServeOutcome.interrupted).exitCode = 0 ∧
    (mainOf ServeOutcome.interrupted).loggedError = none ∧
    (mainOf (ServeOutcome.fault m)).exitCode ≠ 0 ∧
    (mainOf (ServeOutcome.fault m)).loggedError =
      some ("Server error: " ++ m) :=
  ⟨rfl, rfl, Nat.one_ne_zero, rfl⟩

/-- Claim C9: the tool output is the same for any two argument pairs — the
body's return value does not depend on `query_type` or `campaign_name`. -/
theorem c9_output_independent_of_inputs (qt1 qt2 : String)
    (cn1 cn2 : Option String) :
    get_email_campaign_data qt1 cn1 = get_email_campaign_data qt2 cn2 := rfl

/-- Claim C10: for every argument pair, recognized or not, the tool body
terminates normally — it raises no exception and reads no file. -/
theorem c10_no_fault_no_file_read (query_type : String)
    (campaign_name : Option String) :
    (get_email_campaign_data_trace query_type campaign_name).raised = none ∧
    (get_email_campaign_data_trace query_type campaign_name).filesRead =
      [] :=
  ⟨rfl, rfl⟩

end Server
